import Mathlib

/-!
Shallow embedding of the transport/correlation core of `tello/tello.py`
(class `Tello`): the command dispatcher (`__send_command_and_return`,
`send_command`), the telemetry decoder (`__state_parse`), the peer
registry steps of the two receiver threads, and the local validation
helpers (`__check_sdk_mode`, `__check_in_range`) together with the
command builders the claims mention.

Strings are modelled as `List Char` (the protocol is ASCII).  Wall-clock
time is modelled as exact integer milliseconds (every constant in the
source — 0.1 s spacing, 0.1 s poll interval, 8 s timeout — is an exact
multiple of a millisecond); `time.sleep d` advances time by exactly `d`.
Python `float` values produced by the telemetry decoder are modelled as
the exact decimal value of the literal, kept as a mantissa/exponent pair
`m / 10 ^ e`.
-/

namespace Tello

/-! ## Python string primitives used by the source -/

/-- Python whitespace characters relevant to `str.strip()` (ASCII). -/
def isPySpace (c : Char) : Bool :=
  c.toNat = 32 || c.toNat = 9 || c.toNat = 10 || c.toNat = 13 || c.toNat = 11 || c.toNat = 12

/-- Python `str.strip()` with no arguments: drop leading and trailing whitespace. -/
def pyStrip (s : List Char) : List Char :=
  ((s.dropWhile isPySpace).reverse.dropWhile isPySpace).reverse

/-- Python `str.lower()` restricted to ASCII, which is all the protocol uses. -/
def pyLower (s : List Char) : List Char := s.map Char.toLower

/-- Python `str.split(sep)` for a one-character separator: `"".split(c) = [""]`,
and every occurrence of the separator starts a new (possibly empty) segment. -/
def splitOnChar (sep : Char) : List Char → List (List Char)
  | [] => [[]]
  | c :: rest =>
    match splitOnChar sep rest with
    | [] => [[]]
    | g :: gs => if c = sep then [] :: g :: gs else (c :: g) :: gs

/-- Python `str.rstrip("\r\n")`: drop trailing carriage returns and newlines. -/
def rstripCRLF (s : List Char) : List Char :=
  (s.reverse.dropWhile (fun c => c.toNat = 13 || c.toNat = 10)).reverse

def isDigitChar (c : Char) : Bool := 48 ≤ c.toNat && c.toNat ≤ 57

def digitVal (c : Char) : ℕ := c.toNat - 48

/-- Numeric value of a digit string (caller checks the digits). -/
def natValOfDigits (s : List Char) : ℕ :=
  s.foldl (fun a c => a * 10 + digitVal c) 0

/-- A nonempty all-digit string parsed to a natural number, else failure. -/
def natOfDigits (s : List Char) : Option ℕ :=
  match s with
  | [] => none
  | _ => if s.all isDigitChar then some (natValOfDigits s) else none

/-- Modelled subset of Python `int(str)`: optional surrounding whitespace, an
optional sign, then one or more decimal digits.  (Python additionally accepts
underscore digit separators and non-ASCII digits; the telemetry protocol emits
neither, and all failure cases of the claims are failures here too.) -/
def pyParseInt (s : List Char) : Option ℤ :=
  match pyStrip s with
  | [] => none
  | c :: rest =>
    if c = '+' then (natOfDigits rest).map (fun n => (n : ℤ))
    else if c = '-' then (natOfDigits rest).map (fun n => -(n : ℤ))
    else (natOfDigits (c :: rest)).map (fun n => (n : ℤ))

/-- Exact decimal number `mantissa / 10 ^ exp`, the value of a parsed float
literal (kept unreduced so that equality of parses is structural). -/
structure Decimal where
  mantissa : ℤ
  exp : ℕ
deriving DecidableEq

/-- The rational value a `Decimal` denotes. -/
def Decimal.toRat (d : Decimal) : ℚ := (d.mantissa : ℚ) / (10 : ℚ) ^ d.exp

/-- Negation of the denoted value. -/
def Decimal.neg (d : Decimal) : Decimal := ⟨-d.mantissa, d.exp⟩

/-- Unsigned decimal float forms accepted by Python `float(str)`:
`digits`, `digits.`, `digits.digits`, `.digits`.  Value is the exact decimal. -/
def pyParseUnsignedFloat (t : List Char) : Option Decimal :=
  let ip := t.takeWhile isDigitChar
  let rest := t.dropWhile isDigitChar
  match rest with
  | [] => if ip.isEmpty then none else some ⟨(natValOfDigits ip : ℤ), 0⟩
  | '.' :: frac =>
    if frac.all isDigitChar && !(ip.isEmpty && frac.isEmpty) then
      some ⟨(natValOfDigits ip * 10 ^ frac.length + natValOfDigits frac : ℤ), frac.length⟩
    else none
  | _ => none

/-- Modelled subset of Python `float(str)`: optional surrounding whitespace,
optional sign, then a decimal form as in `pyParseUnsignedFloat`.  (Python
additionally accepts exponents, `inf` and `nan`; the telemetry protocol emits
plain decimals only.) -/
def pyParseFloat (s : List Char) : Option Decimal :=
  match pyStrip s with
  | [] => none
  | c :: rest =>
    if c = '+' then pyParseUnsignedFloat rest
    else if c = '-' then (pyParseUnsignedFloat rest).map Decimal.neg
    else pyParseUnsignedFloat (c :: rest)

/-! ## Telemetry decoder (`Tello.__state_parse`) -/

/-- A telemetry field value: `int`, `float` or raw string, as in the source. -/
inductive StateValue where
  | intVal (n : ℤ)
  | floatVal (d : Decimal)
  | strVal (s : List Char)
deriving DecidableEq

inductive NumType where
  | toInt
  | toFloat
deriving DecidableEq

/-- `Tello.INT_STATE_FIELDS`. -/
def INT_STATE_FIELDS : List (List Char) :=
  ["mid".toList, "x".toList, "y".toList, "z".toList,
   "pitch".toList, "roll".toList, "yaw".toList,
   "vgx".toList, "vgy".toList, "vgz".toList,
   "templ".toList, "temph".toList,
   "tof".toList, "h".toList, "bat".toList, "time".toList]

/-- `Tello.FLOAT_STATE_FIELDS`. -/
def FLOAT_STATE_FIELDS : List (List Char) :=
  ["baro".toList, "agx".toList, "agy".toList, "agz".toList]

/-- `Tello.state_field_converters`: the fixed field-to-type schema. -/
def state_field_converters (key : List Char) : Option NumType :=
  if INT_STATE_FIELDS.contains key then some NumType.toInt
  else if FLOAT_STATE_FIELDS.contains key then some NumType.toFloat
  else none

/-- A Python dict with string keys, modelled as an insertion-ordered
association list; assigning to an existing key overwrites in place. -/
abbrev StateDict := List (List Char × StateValue)

/-- `state_dict[key] = value` on the insertion-ordered model. -/
def dictInsert (d : StateDict) (key : List Char) (v : StateValue) : StateDict :=
  if d.any (fun kv => kv.1 == key) then
    d.map (fun kv => if kv.1 == key then (key, v) else kv)
  else d ++ [(key, v)]

/-- The value stored for a `key:value` pair by `Tello.__state_parse`: a schema
key must parse to its declared numeric type, else `none` (the `ValueError`
branch executes `continue`, dropping the field); keys outside the schema keep
the raw string value. -/
def convertValue (key v : List Char) : Option StateValue :=
  match state_field_converters key with
  | some NumType.toInt => (pyParseInt v).map StateValue.intVal
  | some NumType.toFloat => (pyParseFloat v).map StateValue.floatVal
  | none => some (StateValue.strVal v)

/-- The body of the for-loop of `Tello.__state_parse`, applied to the parts
`field.split(":")` of one segment: fewer than two parts means skip
(`continue`); otherwise `key = split[0]`, `value = split[1]`, convert, and
assign into the dict unless conversion failed. -/
def processParts (d : StateDict) : List (List Char) → StateDict
  | key :: v :: _ =>
    match convertValue key v with
    | some w => dictInsert d key w
    | none => d
  | _ => d

/-- One iteration of the for-loop of `Tello.__state_parse` on one
semicolon-separated segment. -/
def processSegment (d : StateDict) (seg : List Char) : StateDict :=
  processParts d (splitOnChar ':' seg)

/-- `Tello.__state_parse`: strip the line, map a bare "ok" to the empty dict,
otherwise split on semicolons and process each segment in order. -/
def state_parse (s : List Char) : StateDict :=
  let t := pyStrip s
  if t = "ok".toList then []
  else (splitOnChar ';' t).foldl processSegment []

/-- A segment whose key is in the numeric schema but whose value fails the
declared numeric parse (the `ValueError` branch of `__state_parse`). -/
def segmentMalformed (seg : List Char) : Bool :=
  match splitOnChar ':' seg with
  | key :: v :: _ => (convertValue key v).isNone
  | _ => false

/-! ## Command dispatcher (`Tello.__send_command_and_return`, `Tello.send_command`) -/

/-- The bytes, if any, that the receiver thread put in this device's response
queue for one dispatch attempt, as seen by the polling loop:
either no response before the deadline, or a response found at poll number
`polls` (each poll is one 0.1 s sleep), decodable to text or not. -/
inductive Payload where
  | text (s : List Char)
  | undecodable
deriving DecidableEq

inductive Outcome where
  | timeout
  | reply (polls : ℕ) (p : Payload)
deriving DecidableEq

/-- ASCII apostrophe, used by the f-string of the timeout warning. -/
def squote : Char := Char.ofNat 39

/-- The string returned on the timeout path of `__send_command_and_return`:
the f-string interpolating the command and the timeout value (`ts` is the
rendering of the timeout number, "8" for the default). -/
def timeoutMessage (cmd ts : List Char) : List Char :=
  "Aborting command ".toList ++ (squote :: cmd)
    ++ (squote :: ". Did not receive a response after ".toList)
    ++ ts ++ " seconds".toList

/-- The string returned on the `UnicodeDecodeError` path. -/
def decodeErrorMessage : List Char := "response decode error".toList

/-- The string one call to `__send_command_and_return` returns for a given
attempt outcome: the timeout warning, the decode-error marker, or the decoded
response with trailing CR/LF stripped. -/
def attemptResponse (cmd ts : List Char) : Outcome → List Char
  | Outcome.timeout => timeoutMessage cmd ts
  | Outcome.reply _ Payload.undecodable => decodeErrorMessage
  | Outcome.reply _ (Payload.text s) => rstripCRLF s

/-- Boolean form of the Python substring test for the two-character "ok". -/
def containsOk : List Char → Bool
  | a :: b :: rest => (a == 'o' && b == 'k') || containsOk (b :: rest)
  | _ => false

/-- Python test from `send_command`: `'ok' in response.lower()`. -/
def okInLower (resp : List Char) : Bool := containsOk (pyLower resp)

/-- `Tello.send_command`: the retry loop, driven by one attempt outcome per
iteration (the list has length `retry_count`, default 3).  Returns the boolean
result together with the number of attempts actually dispatched. -/
def send_command (cmd ts : List Char) : List Outcome → Bool × ℕ
  | [] => (false, 0)
  | o :: rest =>
    if okInLower (attemptResponse cmd ts o) then (true, 1)
    else
      let r := send_command cmd ts rest
      (r.1, r.2 + 1)

/-! ## Timed model of one `__send_command_and_return` call -/

/-- Per-session dispatch state: the current wall clock, the value of
`self.last_received_command_timestamp`, and the log of (time, command)
transmissions made so far.  All times in integer milliseconds. -/
structure DispatchState where
  now : ℤ
  last : ℤ
  sends : List (ℤ × List Char)
deriving DecidableEq

/-- `Tello.TIME_BTW_COMMANDS` (0.1 s), in milliseconds. -/
def TIME_BTW_COMMANDS : ℤ := 100

/-- `Tello.TIMEOUT` (8 s), in milliseconds. -/
def TIMEOUT : ℤ := 8000

/-- The moment `client_socket.sendto` runs: `diff = now - last`; if
`diff < TIME_BTW_COMMANDS` the code executes `time.sleep(diff)` (sleeping the
elapsed time itself, not the remainder of the interval), then sends. -/
def pacedSendTime (st : DispatchState) : ℤ :=
  let diff := st.now - st.last
  if diff < TIME_BTW_COMMANDS then st.now + diff else st.now

/-- Time consumed by the polling loop when no response ever arrives: the loop
sleeps in 0.1 s steps until the elapsed time first exceeds `timeout` (for the
nonnegative timeouts the source uses). -/
def pollElapsed (timeout : ℤ) : ℤ := (timeout / 100 + 1) * 100

/-- Timed model of `Tello.__send_command_and_return`: pace, send (recording
the transmission time), then poll the queue.  On timeout the function returns
the warning message and `last` is left unchanged (the early return skips the
assignment); on a response found at poll `k` the loop exits at `sendTime +
100 k` and `self.last_received_command_timestamp` is set to that moment, after
which the payload is decoded. -/
def send_command_and_return (timeout : ℤ) (st : DispatchState) (cmd ts : List Char)
    (o : Outcome) : DispatchState × List Char :=
  let t1 := pacedSendTime st
  let sends2 := st.sends ++ [(t1, cmd)]
  match o with
  | Outcome.timeout => (⟨t1 + pollElapsed timeout, st.last, sends2⟩, timeoutMessage cmd ts)
  | Outcome.reply k p =>
    let t2 := t1 + (k : ℤ) * 100
    (⟨t2, t2, sends2⟩, attemptResponse cmd ts (Outcome.reply k p))

/-- The two-command run refuting the spacing guarantee: the device answers the
first command instantly (response already queued at the first poll), and the
caller issues the second command 20 ms later. -/
def c2SecondRun : DispatchState :=
  let s1 := (send_command_and_return TIMEOUT ⟨0, 0, []⟩ ("command".toList) ("8".toList)
    (Outcome.reply 0 (Payload.text ("ok".toList)))).1
  (send_command_and_return TIMEOUT ⟨s1.now + 20, s1.last, s1.sends⟩ ("command".toList)
    ("8".toList) (Outcome.reply 0 (Payload.text ("ok".toList)))).1

/-! ## Peer registry and receiver threads -/

/-- The per-peer record held in the global `drones` dict: the pending response
queue and the latest telemetry snapshot. -/
structure DroneRecord where
  responses : List (List Char)
  state : StateDict
deriving DecidableEq

/-- The global `drones` registry, keyed by source IP string. -/
abbrev Drones := List (List Char × DroneRecord)

/-- One iteration of `Tello.__receive_thread`: a datagram from a registered
address is appended to that record's response queue; an unregistered source
address is skipped (`continue`). -/
def receive_step (ds : Drones) (addr payload : List Char) : Drones :=
  if ds.any (fun p => p.1 == addr) then
    ds.map (fun p => if p.1 == addr then (p.1, ⟨p.2.responses ++ [payload], p.2.state⟩) else p)
  else ds

/-- One iteration of `Tello.__state_thread`: a datagram from a registered
address replaces that record's telemetry snapshot with the parse of the line;
an unregistered source address is skipped (`continue`). -/
def state_step (ds : Drones) (addr line : List Char) : Drones :=
  if ds.any (fun p => p.1 == addr) then
    ds.map (fun p => if p.1 == addr then (p.1, ⟨p.2.responses, state_parse line⟩) else p)
  else ds

/-! ## Local validation and the command builders the claims mention -/

/-- `Tello.DISTANCE_RANGE` in centimeters. -/
def DISTANCE_RANGE : ℤ × ℤ := (20, 500)

/-- `Tello.__check_in_range`: inclusive on both bounds. -/
def check_in_range (value : ℤ) (r : ℤ × ℤ) : Bool :=
  if value ≥ r.1 ∧ value ≤ r.2 then true else false

/-- `Tello.__check_sdk_mode`: pass when the flag is set, otherwise raise
`ValueError` with the capability message. -/
def check_sdk_mode (sdk_mode_enable : Bool) : Except (List Char) Unit :=
  if sdk_mode_enable then Except.ok ()
  else Except.error ("Enable SDK mode with connect() function.".toList)

/-- Datagrams transmitted by one of the six move methods (`move_up`,
`move_down`, `move_left`, `move_right`, `move_forward`, `move_backward`):
the SDK-mode check runs first (its `ValueError` is caught by the method's
`except`, sending nothing), then the range check selects between one
`__send_command_and_return` call (exactly one `sendto`) and a logged
rejection with no I/O. -/
def move_command_datagrams (cmdName : List Char) (sdk_mode_enable : Bool)
    (distance : ℤ) : List (List Char) :=
  match check_sdk_mode sdk_mode_enable with
  | Except.error _ => []
  | Except.ok _ =>
    if check_in_range distance DISTANCE_RANGE then
      [cmdName ++ (' ' :: (toString distance).toList)]
    else []

/-- `Tello.move_forward`: transmitted datagrams. -/
def move_forward (sdk : Bool) (d : ℤ) : List (List Char) :=
  move_command_datagrams ("forward".toList) sdk d

/-- `Tello.move_backward`: transmitted datagrams. -/
def move_backward (sdk : Bool) (d : ℤ) : List (List Char) :=
  move_command_datagrams ("back".toList) sdk d

/-- `Tello.move_up`: transmitted datagrams. -/
def move_up (sdk : Bool) (d : ℤ) : List (List Char) :=
  move_command_datagrams ("up".toList) sdk d

/-- `Tello.move_down`: transmitted datagrams. -/
def move_down (sdk : Bool) (d : ℤ) : List (List Char) :=
  move_command_datagrams ("down".toList) sdk d

/-- `Tello.move_left`: transmitted datagrams. -/
def move_left (sdk : Bool) (d : ℤ) : List (List Char) :=
  move_command_datagrams ("left".toList) sdk d

/-- `Tello.move_right`: transmitted datagrams. -/
def move_right (sdk : Bool) (d : ℤ) : List (List Char) :=
  move_command_datagrams ("right".toList) sdk d

/-- `Tello.takeoff`: the SDK-mode check runs before the single send; its
`ValueError` is caught by the except-branch, which only logs. -/
def takeoff (sdk : Bool) : List (List Char) :=
  match check_sdk_mode sdk with
  | Except.error _ => []
  | Except.ok _ => ["takeoff".toList]

/-- `Tello.land`: same shape as `takeoff`. -/
def land (sdk : Bool) : List (List Char) :=
  match check_sdk_mode sdk with
  | Except.error _ => []
  | Except.ok _ => ["land".toList]

/-- `Tello.emergency`: same shape as `takeoff`. -/
def emergency (sdk : Bool) : List (List Char) :=
  match check_sdk_mode sdk with
  | Except.error _ => []
  | Except.ok _ => ["emergency".toList]

/-- `Tello.__check_sdk_version` as used by `reboot`. -/
def check_sdk_version (sdk_version : Option ℕ) (version : ℕ) : Except (List Char) Unit :=
  if sdk_version = some version then Except.ok ()
  else Except.error ("Unsupported function for the current SDK version".toList)

/-- `Tello.reboot`: checks SDK mode, then SDK version 30, then writes the
datagram directly to the socket (fire-and-forget). -/
def reboot (sdk : Bool) (ver : Option ℕ) : List (List Char) :=
  match check_sdk_mode sdk with
  | Except.error _ => []
  | Except.ok _ =>
    match check_sdk_version ver 30 with
    | Except.error _ => []
    | Except.ok _ => ["reboot".toList]

/-! ## Helper lemmas -/

/-- Appending on the right of an "ok"-free string whose last character cannot
start an "ok" pair with the head of the suffix adds no "ok" occurrence. -/
theorem containsOk_append (xs ys : List Char)
    (h1 : containsOk xs = false)
    (hj : ∀ a b, xs.getLast? = some a → ys.head? = some b → (a == 'o' && b == 'k') = false) :
    containsOk (xs ++ ys) = containsOk ys := by
  induction xs with
  | nil => rfl
  | cons a t ih =>
    cases t with
    | nil =>
      cases ys with
      | nil => simp [containsOk]
      | cons b ys2 =>
        have hab := hj a b rfl rfl
        simp [containsOk, hab]
    | cons b t2 =>
      have h1c : ((a == 'o' && b == 'k') || containsOk (b :: t2)) = false := h1
      have hab : (a == 'o' && b == 'k') = false := by
        cases hx : (a == 'o' && b == 'k') with
        | false => rfl
        | true => rw [hx] at h1c; simp at h1c
      have h2 : containsOk (b :: t2) = false := by
        cases hx : containsOk (b :: t2) with
        | false => rfl
        | true => rw [hx] at h1c; simp at h1c
      have hj2 : ∀ a2 b2, (b :: t2).getLast? = some a2 → ys.head? = some b2 →
          (a2 == 'o' && b2 == 'k') = false := by
        intro a2 b2 ha2 hb2
        exact hj a2 b2 (by rw [List.getLast?_cons_cons]; exact ha2) hb2
      calc containsOk ((a :: b :: t2) ++ ys)
          = ((a == 'o' && b == 'k') || containsOk ((b :: t2) ++ ys)) := rfl
        _ = containsOk ((b :: t2) ++ ys) := by rw [hab]; simp
        _ = containsOk ys := ih h2 hj2

/-- Sandwiching an "ok"-free string between an "ok"-free left part not ending
in a letter that can open "ok" and an "ok"-free right part not starting with
a letter that can close it yields an "ok"-free string. -/
theorem containsOk_three (xs m ys : List Char)
    (hx : containsOk xs = false) (hm : containsOk m = false) (hy : containsOk ys = false)
    (hxl : ∀ a, xs.getLast? = some a → (a == 'o') = false)
    (hyh : ∀ b, ys.head? = some b → (b == 'k') = false) :
    containsOk (xs ++ m ++ ys) = false := by
  have hmy : containsOk (m ++ ys) = false := by
    rw [containsOk_append m ys hm ?hj1]
    · exact hy
    case hj1 =>
      intro a b _ hb
      rw [hyh b hb]
      simp
  rw [List.append_assoc]
  rw [containsOk_append xs (m ++ ys) hx ?hj2]
  · exact hmy
  case hj2 =>
    intro a b ha _
    rw [hxl a ha]
    simp

/-- The timeout warning message contains "ok" (case-insensitively) only if the
command text itself does: the fixed message pieces are "ok"-free and the
characters flanking the interpolated command are apostrophes. -/
theorem timeoutMessage_not_ok (cmd : List Char) (h : containsOk (pyLower cmd) = false) :
    okInLower (timeoutMessage cmd ("8".toList)) = false := by
  have e : pyLower (timeoutMessage cmd ("8".toList))
      = (pyLower ("Aborting command ".toList) ++ [squote]) ++ pyLower cmd
        ++ (squote :: (pyLower (". Did not receive a response after ".toList)
            ++ "8".toList ++ pyLower (" seconds".toList))) := by
    have hsq : Char.toLower squote = squote := by decide
    have h8 : Char.toLower '8' = '8' := by decide
    simp [timeoutMessage, pyLower, hsq, h8, List.append_assoc]
  rw [okInLower, e]
  apply containsOk_three
  · decide
  · exact h
  · decide
  · intro a ha
    have : ((pyLower ("Aborting command ".toList) ++ [squote]).getLast? = some squote) := by
      decide
    rw [this] at ha
    cases ha
    decide
  · intro b hb
    have : ((squote :: (pyLower (". Did not receive a response after ".toList)
        ++ "8".toList ++ pyLower (" seconds".toList))).head? = some squote) := rfl
    rw [this] at hb
    cases hb
    decide

/-- The boolean result of the `send_command` retry loop is true exactly when
some attempt response contains "ok" case-insensitively. -/
theorem send_command_fst_any (cmd ts : List Char) (outs : List Outcome) :
    (send_command cmd ts outs).1
      = outs.any (fun o => okInLower (attemptResponse cmd ts o)) := by
  induction outs with
  | nil => rfl
  | cons o rest ih =>
    cases hco : okInLower (attemptResponse cmd ts o) with
    | true => simp [send_command, hco]
    | false => simp [send_command, hco, ih]

/-- A malformed-schema segment contributes nothing to the state dict. -/
theorem processSegment_malformed (d : StateDict) (seg : List Char)
    (h : segmentMalformed seg = true) : processSegment d seg = d := by
  rw [processSegment]
  rcases e : splitOnChar ':' seg with _ | ⟨key, _ | ⟨v, r⟩⟩
  · rfl
  · rfl
  · rw [segmentMalformed, e] at h
    have h2 : (convertValue key v).isNone = true := h
    rcases e2 : convertValue key v with _ | w
    · simp [processParts, e2]
    · rw [e2] at h2
      simp at h2

/-- Folding the segment loop over a list of segments equals folding it over
the list with the malformed-schema segments removed. -/
theorem foldl_processSegment_filter (segs : List (List Char)) (d : StateDict) :
    segs.foldl processSegment d
      = (segs.filter (fun s => !(segmentMalformed s))).foldl processSegment d := by
  induction segs generalizing d with
  | nil => rfl
  | cons s rest ih =>
    cases hm : segmentMalformed s with
    | true =>
      rw [List.foldl_cons, processSegment_malformed d s hm]
      rw [List.filter_cons]
      simp only [hm, Bool.not_true, Bool.false_eq_true, if_false]
      exact ih d
    | false =>
      rw [List.foldl_cons, List.filter_cons]
      simp only [hm, Bool.not_false, if_true]
      rw [List.foldl_cons]
      exact ih (processSegment d s)

/-- The inclusive-bounds range check as a proposition. -/
theorem check_in_range_distance_iff (v : ℤ) :
    check_in_range v DISTANCE_RANGE = true ↔ (20 ≤ v ∧ v ≤ 500) := by
  rw [check_in_range, DISTANCE_RANGE]
  constructor
  · intro h
    by_contra hc
    rw [if_neg] at h
    · exact Bool.false_ne_true h
    · exact fun hx => hc ⟨hx.1, hx.2⟩
  · intro h
    rw [if_pos]
    exact ⟨h.1, h.2⟩

/-! ## Claim theorems -/

/-- Claim C1, counterexample: the claim quantifies its retry scenario over
every command string, but for the command "ok" the timeout warning message
interpolates the command and itself passes the case-insensitive "ok" test, so
`send_command` against a transport that times out twice and then answers "ok"
reports success after exactly 1 send, not 3. -/
theorem c1_counterexample :
    send_command ("ok".toList) ("8".toList)
      [Outcome.timeout, Outcome.timeout, Outcome.reply 0 (Payload.text ("ok".toList))]
      = (true, 1)
    ∧ ¬ (send_command ("ok".toList) ("8".toList)
      [Outcome.timeout, Outcome.timeout, Outcome.reply 0 (Payload.text ("ok".toList))]
      = (true, 3)) := by
  constructor
  · decide
  · decide

/-- Claim C1, amended: for every command whose text does not itself contain
"ok" case-insensitively, `send_command` runs one `__send_command_and_return`
attempt per retry slot (default 3), succeeds as soon as an attempt response
contains "ok" case-insensitively, and fails if all attempts do not; in
particular two timeouts followed by an "ok" reply yield success after exactly
3 sends. -/
theorem c1_retry_semantics :
    ∀ cmd : List Char, containsOk (pyLower cmd) = false →
      send_command cmd ("8".toList)
          [Outcome.timeout, Outcome.timeout, Outcome.reply 0 (Payload.text ("ok".toList))]
        = (true, 3)
      ∧ ∀ outs : List Outcome,
          (send_command cmd ("8".toList) outs).1
            = outs.any (fun o => okInLower (attemptResponse cmd ("8".toList) o)) := by
  intro cmd h
  have hto : okInLower (attemptResponse cmd ['8'] Outcome.timeout) = false :=
    timeoutMessage_not_ok cmd h
  have hok : okInLower (attemptResponse cmd ['8']
      (Outcome.reply 0 (Payload.text ['o', 'k']))) = true := rfl
  constructor
  · simp [send_command, hto, hok]
  · intro outs
    exact send_command_fst_any cmd ("8".toList) outs

/-- Claim C1, witness: for the command "command" (no "ok" in its text) the
two-timeouts-then-"ok" transport yields success after exactly 3 sends. -/
theorem c1_retry_semantics_witness :
    send_command ("command".toList) ("8".toList)
        [Outcome.timeout, Outcome.timeout, Outcome.reply 0 (Payload.text ("ok".toList))]
      = (true, 3) :=
  (c1_retry_semantics ("command".toList) (by decide)).1

/-- Claim C2: the pacing code sleeps `diff` (the time already elapsed) rather
than the remainder `TIME_BTW_COMMANDS - diff`, so two transmissions to the
same device can be less than the configured spacing apart: with the first
command acknowledged instantly at time 0 and the second issued 20 ms later,
the second datagram leaves at 40 ms, only 40 ms after the first. -/
theorem c2_pacing_violated :
    c2SecondRun.sends = [((0 : ℤ), "command".toList), ((40 : ℤ), "command".toList)]
    ∧ (40 : ℤ) - 0 < TIME_BTW_COMMANDS := by
  constructor
  · decide
  · decide

/-- Claim C3, counterexample: with a response popped at the third poll, the
pacing timestamp ends at 300 ms — the time the response was consumed — while
the only datagram was sent at time 0; the timestamp is not the send time. -/
theorem c3_counterexample :
    ((send_command_and_return TIMEOUT ⟨0, 0, []⟩ ("command".toList) ("8".toList)
        (Outcome.reply 3 (Payload.text ("ok".toList)))).1.last = 300)
    ∧ ((send_command_and_return TIMEOUT ⟨0, 0, []⟩ ("command".toList) ("8".toList)
        (Outcome.reply 3 (Payload.text ("ok".toList)))).1.sends
          = [((0 : ℤ), "command".toList)])
    ∧ (300 : ℤ) ≠ 0 := by
  refine ⟨by decide, by decide, by decide⟩

/-- Claim C3, amended: `__send_command_and_return` updates the pacing
timestamp `last_received_command_timestamp` only after a response is received
(setting it to the moment the response is popped, `sendTime + 100·polls`);
on the timeout path the early return leaves it unchanged, and it is never
assigned at send time, although the send itself is always recorded. -/
theorem c3_timestamp_after_receive :
    ∀ (timeout : ℤ) (st : DispatchState) (cmd ts : List Char) (k : ℕ) (p : Payload),
      ((send_command_and_return timeout st cmd ts (Outcome.reply k p)).1.last
        = pacedSendTime st + (k : ℤ) * 100)
      ∧ ((send_command_and_return timeout st cmd ts Outcome.timeout).1.last = st.last)
      ∧ ((send_command_and_return timeout st cmd ts (Outcome.reply k p)).1.sends
        = st.sends ++ [(pacedSendTime st, cmd)])
      ∧ ((send_command_and_return timeout st cmd ts Outcome.timeout).1.sends
        = st.sends ++ [(pacedSendTime st, cmd)]) := by
  intro timeout st cmd ts k p
  exact ⟨rfl, rfl, rfl, rfl⟩

/-- Claim C4, counterexample: for the command "ok", a run in which every
attempt times out is still classified as success, because the timeout warning
message interpolates the command text and so contains "ok". -/
theorem c4_counterexample :
    (send_command ("ok".toList) ("8".toList)
      [Outcome.timeout, Outcome.timeout, Outcome.timeout]).1 = true := by
  decide

/-- Claim C4, amended: the timeout path returns the warning message — a plain
string of the same type as device responses, not a distinguished value — and
`send_command` classifies an all-timeouts run as failure exactly for commands
whose text does not contain "ok" case-insensitively. -/
theorem c4_timeout_not_success :
    (∀ cmd ts : List Char, attemptResponse cmd ts Outcome.timeout = timeoutMessage cmd ts)
    ∧ ∀ cmd : List Char, containsOk (pyLower cmd) = false →
        ∀ outs : List Outcome, (∀ o ∈ outs, o = Outcome.timeout) →
          (send_command cmd ("8".toList) outs).1 = false := by
  refine ⟨fun cmd ts => rfl, ?_⟩
  intro cmd h outs hall
  rw [send_command_fst_any]
  rw [List.any_eq_false]
  intro o ho
  rw [hall o ho]
  show ¬ okInLower (timeoutMessage cmd ("8".toList)) = true
  rw [timeoutMessage_not_ok cmd h]
  simp

/-- Claim C4, witness: for the command "command", three timeouts yield
failure. -/
theorem c4_timeout_not_success_witness :
    (send_command ("command".toList) ("8".toList)
      [Outcome.timeout, Outcome.timeout, Outcome.timeout]).1 = false :=
  c4_timeout_not_success.2 ("command".toList) (by decide)
    [Outcome.timeout, Outcome.timeout, Outcome.timeout] (by decide)

/-- Claim C5: the telemetry decoder maps the bare line "ok" to the empty
mapping; maps "pitch:3;roll:-2;baro:1.23;" to pitch = 3 and roll = -2 as
integers and baro = 1.23 (the decimal 123/100) as a float per the fixed
schema; and stores any key outside the schema with its raw string value. -/
theorem c5_state_parse_schema :
    state_parse ("ok".toList) = []
    ∧ state_parse ("pitch:3;roll:-2;baro:1.23;".toList)
        = [("pitch".toList, StateValue.intVal 3), ("roll".toList, StateValue.intVal (-2)),
           ("baro".toList, StateValue.floatVal ⟨123, 2⟩)]
    ∧ Decimal.toRat ⟨123, 2⟩ = 123 / 100
    ∧ ∀ (d : StateDict) (seg key v : List Char) (rest : List (List Char)),
        splitOnChar ':' seg = key :: v :: rest →
        state_field_converters key = none →
        processSegment d seg = dictInsert d key (StateValue.strVal v) := by
  refine ⟨by decide, by decide, by norm_num [Decimal.toRat], ?_⟩
  intro d seg key v rest h1 h2
  rw [processSegment, h1]
  show (match convertValue key v with
    | some w => dictInsert d key w
    | none => d) = dictInsert d key (StateValue.strVal v)
  rw [convertValue, h2]

/-- Claim C5, witness: a key outside the schema is stored with its raw string
value. -/
theorem c5_state_parse_schema_witness :
    processSegment [] ("foo:bar".toList)
      = [("foo".toList, StateValue.strVal ("bar".toList))] :=
  (c5_state_parse_schema.2.2.2 [] ("foo:bar".toList) ("foo".toList) ("bar".toList) []
    (by decide) (by decide)).trans (by decide)

/-- Claim C6: a schema field whose value fails its declared numeric parse is
dropped and only it — the fold over the segments equals the fold over the
segments with the malformed ones removed — and concretely a line with a
malformed pitch still yields its valid roll and baro fields. -/
theorem c6_malformed_field_dropped :
    (∀ (d : StateDict) (segs : List (List Char)),
        segs.foldl processSegment d
          = (segs.filter (fun s => !(segmentMalformed s))).foldl processSegment d)
    ∧ state_parse ("pitch:abc;roll:-2;baro:1.23".toList)
        = [("roll".toList, StateValue.intVal (-2)),
           ("baro".toList, StateValue.floatVal ⟨123, 2⟩)]
    ∧ segmentMalformed ("pitch:abc".toList) = true := by
  refine ⟨fun d segs => foldl_processSegment_filter segs d, by decide, by decide⟩

/-- Claim C7: with the session in SDK mode, each of the six move commands
rejects a distance outside the inclusive range 20–500 locally, transmitting
nothing, and transmits exactly one datagram for a distance inside it. -/
theorem c7_move_range_check :
    ∀ dist : ℤ,
      (¬ (20 ≤ dist ∧ dist ≤ 500) →
        move_forward true dist = [] ∧ move_backward true dist = []
        ∧ move_up true dist = [] ∧ move_down true dist = []
        ∧ move_left true dist = [] ∧ move_right true dist = [])
      ∧ ((20 ≤ dist ∧ dist ≤ 500) →
        (move_forward true dist).length = 1 ∧ (move_backward true dist).length = 1
        ∧ (move_up true dist).length = 1 ∧ (move_down true dist).length = 1
        ∧ (move_left true dist).length = 1 ∧ (move_right true dist).length = 1) := by
  intro dist
  constructor
  · intro h
    have hc : check_in_range dist DISTANCE_RANGE = false := by
      cases hx : check_in_range dist DISTANCE_RANGE with
      | false => rfl
      | true => exact absurd ((check_in_range_distance_iff dist).mp hx) h
    refine ⟨?_, ?_, ?_, ?_, ?_, ?_⟩ <;>
      simp [move_forward, move_backward, move_up, move_down, move_left, move_right,
        move_command_datagrams, check_sdk_mode, hc]
  · intro h
    have hc : check_in_range dist DISTANCE_RANGE = true :=
      (check_in_range_distance_iff dist).mpr h
    refine ⟨?_, ?_, ?_, ?_, ?_, ?_⟩ <;>
      simp [move_forward, move_backward, move_up, move_down, move_left, move_right,
        move_command_datagrams, check_sdk_mode, hc]

/-- Claim C7, witness: distance 600 is rejected with nothing sent and
distance 100 produces exactly one datagram. -/
theorem c7_move_range_check_witness :
    move_forward true 600 = [] ∧ (move_forward true 100).length = 1 :=
  ⟨((c7_move_range_check 600).1 (by decide)).1, ((c7_move_range_check 100).2 (by decide)).1⟩

/-- Claim C8: a datagram whose source address has no record in the drones
registry is silently discarded by both receiver threads: the registry —
every queue and every telemetry snapshot — is left exactly as it was. -/
theorem c8_unknown_address_dropped :
    ∀ (ds : Drones) (addr payload line : List Char),
      ds.any (fun p => p.1 == addr) = false →
      receive_step ds addr payload = ds ∧ state_step ds addr line = ds := by
  intro ds addr payload line h
  constructor
  · rw [receive_step, h]
    simp
  · rw [state_step, h]
    simp

/-- Claim C8, witness: a registry holding only 192.168.10.1 is unchanged by
datagrams from 10.0.0.9 on either port. -/
theorem c8_unknown_address_dropped_witness :
    receive_step [("192.168.10.1".toList, ⟨[], []⟩)] ("10.0.0.9".toList) ("ok".toList)
        = [("192.168.10.1".toList, ⟨[], []⟩)]
    ∧ state_step [("192.168.10.1".toList, ⟨[], []⟩)] ("10.0.0.9".toList) ("pitch:3".toList)
        = [("192.168.10.1".toList, ⟨[], []⟩)] := by
  have h := c8_unknown_address_dropped [("192.168.10.1".toList, ⟨[], []⟩)]
    ("10.0.0.9".toList) ("ok".toList) ("pitch:3".toList) (by decide)
  exact h

/-- Claim C9: every embedded command operation that requires SDK mode runs
`__check_sdk_mode` before any I/O; when the session is not connected the
check raises the capability error and the operation transmits nothing. -/
theorem c9_sdk_gate :
    check_sdk_mode false
        = Except.error ("Enable SDK mode with connect() function.".toList)
    ∧ takeoff false = [] ∧ land false = [] ∧ emergency false = []
    ∧ (∀ ver : Option ℕ, reboot false ver = [])
    ∧ ∀ dist : ℤ,
        move_forward false dist = [] ∧ move_backward false dist = []
        ∧ move_up false dist = [] ∧ move_down false dist = []
        ∧ move_left false dist = [] ∧ move_right false dist = [] := by
  refine ⟨rfl, rfl, rfl, rfl, fun ver => rfl, fun dist => ?_⟩
  exact ⟨rfl, rfl, rfl, rfl, rfl, rfl⟩

/-- Claim C10: the telemetry decoder is a total function of the input string
— every segment goes through `processSegment`, which ignores everything
beyond the first two colon-separated parts, so a segment with extra colons
contributes exactly the text between its first and second colon as the value;
concretely "baro:1.23:junk:more" parses baro to 1.23 and ignores the trailing
parts. -/
theorem c10_state_parse_extra_colons :
    (∀ (d : StateDict) (key v : List Char) (rest1 rest2 : List (List Char)),
        processParts d (key :: v :: rest1) = processParts d (key :: v :: rest2))
    ∧ (∀ (d : StateDict) (seg : List Char),
        processSegment d seg = processParts d (splitOnChar ':' seg))
    ∧ state_parse ("baro:1.23:junk:more".toList)
        = [("baro".toList, StateValue.floatVal ⟨123, 2⟩)] := by
  refine ⟨fun d key v rest1 rest2 => rfl, fun d seg => rfl, by decide⟩

end Tello
